import Mathlib

/-!
Verification development for the EMNIST serving-export pipeline
(`notebooks/4_production_TFServing.ipynb`).

The notebook glues together a signature builder, a saved-model bundle
exporter and an HTTP serving client.  The concrete flow (tensor lookup,
the two signatures, the signature map, the delete-then-export sequence)
is embedded directly from the notebook cells; the bodies of the external
library helpers that the notebook calls (`build_tensor_info`,
`build_signature_def`, the bundle exporter, `eval_serving_performance`)
are modelled from the specification, as marked on each definition.
-/

namespace EmnistServing

/-- Scalar element type of a tensor.  `DT_INVALID` stands for an unset dtype. -/
inductive DType where
  | DT_FLOAT
  | DT_INVALID
  deriving DecidableEq, Repr

/-- Immutable tensor descriptor: name, dtype and shape, as printed by the
notebook for `input_tensor_info` and `output_tensor_info`. -/
structure TensorInfo where
  name : String
  dtype : DType
  tensor_shape : List Nat
  deriving DecidableEq, Repr

/-- A signature: role-keyed input and output descriptor maps plus the
method-contract identifier. -/
structure SignatureDef where
  inputs : List (String × TensorInfo)
  outputs : List (String × TensorInfo)
  method_name : String
  deriving DecidableEq, Repr

/-- Reserved input role key of the CLASSIFY contract (printed as `inputs`
in the notebook's classification signature). -/
def CLASSIFY_INPUTS : String := "inputs"

/-- Reserved scores output role key of the CLASSIFY contract. -/
def CLASSIFY_OUTPUT_SCORES : String := "scores"

/-- Reserved classes output role key of the CLASSIFY contract. -/
def CLASSIFY_OUTPUT_CLASSES : String := "classes"

/-- Method-contract identifier of the CLASSIFY protocol, as printed by the
notebook. -/
def CLASSIFY_METHOD_NAME : String := "tensorflow/serving/classify"

/-- Method-contract identifier of the PREDICT protocol, as printed by the
notebook. -/
def PREDICT_METHOD_NAME : String := "tensorflow/serving/predict"

/-- Reserved default serving key of the signature map. -/
def DEFAULT_SERVING_SIGNATURE_DEF_KEY : String := "serving_default"

/-- A named tensor of the converted computation graph. -/
structure GraphTensor where
  tensor_name : String
  dtype : DType
  shape : List Nat
  deriving DecidableEq, Repr

/-- The converted graph's tensor dictionary, as printed by the notebook
(`dnn_model_tf.predict_net.tensor_dict`). -/
def tensor_dict : List (String × GraphTensor) :=
  [("weight_1", ⟨"Const:0", DType.DT_FLOAT, [512, 784]⟩),
   ("bias_1", ⟨"Const_1:0", DType.DT_FLOAT, [512]⟩),
   ("weight_2", ⟨"Const_2:0", DType.DT_FLOAT, [256, 512]⟩),
   ("bias_2", ⟨"Const_3:0", DType.DT_FLOAT, [256]⟩),
   ("weight_3", ⟨"Const_4:0", DType.DT_FLOAT, [62, 256]⟩),
   ("bias_3", ⟨"Const_5:0", DType.DT_FLOAT, [62]⟩),
   ("flattened_rescaled_img_28x28", ⟨"flattened_rescaled_img_28x28:0", DType.DT_FLOAT, [1, 784]⟩),
   ("7", ⟨"add:0", DType.DT_FLOAT, [1, 512]⟩),
   ("8", ⟨"add_1:0", DType.DT_FLOAT, [1, 512]⟩),
   ("9", ⟨"add_2:0", DType.DT_FLOAT, [1, 256]⟩),
   ("10", ⟨"add_3:0", DType.DT_FLOAT, [1, 256]⟩),
   ("11", ⟨"add_4:0", DType.DT_FLOAT, [1, 62]⟩),
   ("softmax_probabilities", ⟨"Softmax:0", DType.DT_FLOAT, [1, 62]⟩)]

/-- Lookup of a graph tensor by its tensor name
(`graph.get_tensor_by_name`). -/
def get_tensor_by_name (g : List (String × GraphTensor)) (n : String) : Option GraphTensor :=
  (g.map Prod.snd).find? (fun t => t.tensor_name == n)

/-- Modelled from the spec: `build_tensor_info` lives in the external
saved-model utils library and only its call sites are under src/.  Per the
spec and the notebook's printed outputs it copies the tensor's name, dtype
and shape into a descriptor. -/
def build_tensor_info (t : GraphTensor) : TensorInfo :=
  ⟨t.tensor_name, t.dtype, t.shape⟩

/-- A descriptor is valid when its dtype is set and its shape is non-empty. -/
def validTensorInfo (t : TensorInfo) : Bool :=
  t.dtype != DType.DT_INVALID && t.tensor_shape != []

/-- Modelled from the spec: `build_signature_def` lives in the external
`signature_def_utils` library and only its call sites are under src/.  Per
spec section 4.1 it echoes the given role-key/descriptor maps and method
name into a Signature, and raises a descriptive configuration error when a
descriptor's dtype is unset or its shape is empty. -/
def build_signature_def (inputs outputs : List (String × TensorInfo))
    (method_name : String) : Except String SignatureDef :=
  if (inputs.all fun p => validTensorInfo p.2) && (outputs.all fun p => validTensorInfo p.2) then
    Except.ok ⟨inputs, outputs, method_name⟩
  else
    Except.error "signature configuration error: unset dtype or empty tensor shape"

/-- Modelled from the spec: CLASSIFY signatures fix the role keys to the
reserved constants, as in notebook cell 15. -/
def build_classification_signature (i o : TensorInfo) : Except String SignatureDef :=
  build_signature_def [(CLASSIFY_INPUTS, i)] [(CLASSIFY_OUTPUT_SCORES, o)] CLASSIFY_METHOD_NAME

/-- Modelled from the spec: PREDICT signatures take caller-supplied role
keys, as in notebook cell 18. -/
def build_prediction_signature (ik okk : String) (i o : TensorInfo) :
    Except String SignatureDef :=
  build_signature_def [(ik, i)] [(okk, o)] PREDICT_METHOD_NAME

/-- The notebook's input descriptor: lookup of
`flattened_rescaled_img_28x28:0` followed by `build_tensor_info`. -/
def input_tensor_info : Option TensorInfo :=
  (get_tensor_by_name tensor_dict "flattened_rescaled_img_28x28:0").map build_tensor_info

/-- The notebook's output descriptor: lookup of `Softmax:0` followed by
`build_tensor_info`. -/
def output_tensor_info : Option TensorInfo :=
  (get_tensor_by_name tensor_dict "Softmax:0").map build_tensor_info

/-- The notebook's signature map: `predict_images` mapped to the prediction
signature and the reserved default key mapped to the classification
signature (cell 21). -/
def notebook_signature_def_map : Option (List (String × SignatureDef)) := do
  let iti ← input_tensor_info
  let oti ← output_tensor_info
  let csig ← (build_classification_signature iti oti).toOption
  let psig ← (build_prediction_signature "images" "scores" iti oti).toOption
  pure [("predict_images", psig), (DEFAULT_SERVING_SIGNATURE_DEF_KEY, csig)]

/-- Input descriptor of the spec's round-trip scenario. -/
def scenario_input : TensorInfo := ⟨"x", DType.DT_FLOAT, [1, 784]⟩

/-- Output descriptor of the spec's round-trip scenario. -/
def scenario_output : TensorInfo := ⟨"y", DType.DT_FLOAT, [1, 62]⟩

/-- The signature of the spec's round-trip scenario: method PREDICT, keys
`images` and `scores`. -/
def scenario_signature : Except String SignatureDef :=
  build_prediction_signature "images" "scores" scenario_input scenario_output

/-- The record the scenario signature is expected to be. -/
def scenario_sig_val : SignatureDef :=
  ⟨[("images", scenario_input)], [("scores", scenario_output)], PREDICT_METHOD_NAME⟩

/-- A filesystem snapshot: directories and files, each addressed by a list
of path components (files carry their byte content as a string). -/
structure FileSys where
  dirs : List (List String)
  files : List (List String × String)
  deriving DecidableEq, Repr

/-- A path exists when some directory or file lies at or below it
(`os.path.exists`). -/
def pathExists (fs : FileSys) (p : List String) : Bool :=
  (fs.dirs.any fun d => p.isPrefixOf d) || (fs.files.any fun f => p.isPrefixOf f.1)

/-- Recursive deletion of a directory tree (`shutil.rmtree`): every
directory and file at or below the path is removed. -/
def rmtree (fs : FileSys) (p : List String) : FileSys :=
  ⟨fs.dirs.filter fun d => !(p.isPrefixOf d),
   fs.files.filter fun f => !(p.isPrefixOf f.1)⟩

/-- Modelled from the spec: the bundle exporter (`SavedModelBuilder` with
`add_meta_graph_and_variables` and `save`) is an external library and only
its call sites are under src/.  Per spec sections 4.2 and 7 it fails with an
"already exists" error when the version directory exists, fails before any
write when the signature map lacks the reserved default key, and otherwise
writes the versioned bundle.  The result pairs the new filesystem with an
optional error. -/
def exportBundle (fs : FileSys) (dir : List String) (version : Nat)
    (sm : List (String × SignatureDef)) (graph_def : String) : FileSys × Option String :=
  let vdir := dir ++ [toString version]
  if pathExists fs vdir then
    (fs, some "already exists")
  else if sm.any fun kv => kv.1 == DEFAULT_SERVING_SIGNATURE_DEF_KEY then
    (⟨vdir :: fs.dirs, (vdir ++ ["saved_model.pb"], graph_def) :: fs.files⟩, none)
  else
    (fs, some "signature map lacks the default serving signature key")

/-- The notebook's model base directory components (`../models`). -/
def models_base : List String := ["..", "models"]

/-- The notebook's model name. -/
def model_name : String := "tf_emnist"

/-- The notebook's constant model version. -/
def model_version : Nat := 1

/-- The notebook's `export_path` (`../models/tf_emnist/`). -/
def export_path : List String := models_base ++ [model_name]

/-- The notebook's `model_path` (`../models/tf_emnist/1`). -/
def model_path : List String := models_base ++ [model_name, toString model_version]

/-- Opaque stand-in for the serialized graph definition written into the
bundle; its bytes are irrelevant to the claims. -/
def graph_def_pb : String := "dnn_model_tf_graph_def"

/-- The notebook's pre-export cleanup (cell 6): delete the whole
`../models/tf_emnist` tree when it exists. -/
def rmtree_step (fs : FileSys) : FileSys :=
  if pathExists fs export_path then rmtree fs export_path else fs

/-- The notebook's full export flow: cleanup, then export of the signature
map under version 1. -/
def export_flow (fs : FileSys) : FileSys × Option String :=
  match notebook_signature_def_map with
  | some sm => exportBundle (rmtree_step fs) export_path model_version sm graph_def_pb
  | none => (rmtree_step fs, some "signature construction failed")

/-- Outcome of one HTTP request as observed by the serving client. -/
inductive RequestResult where
  | success (scores : List ℚ)
  | httpError (status : Nat)
  | connectionRefused
  | timeout
  | malformedJson
  deriving DecidableEq, Repr

/-- A request failed when it did not yield a well-formed score vector. -/
def isFailure : RequestResult → Bool
  | RequestResult.success _ => false
  | _ => true

/-- Index of the first maximum of a score vector, accumulator form. -/
def argmaxAux : List ℚ → Nat → Nat → ℚ → Nat
  | [], _, best, _ => best
  | x :: xs, i, best, bv => if bv < x then argmaxAux xs (i + 1) i x else argmaxAux xs (i + 1) best bv

/-- Index of the first maximum of a score vector (`np.argmax`); 0 on the
empty list. -/
def argmax : List ℚ → Nat
  | [] => 0
  | x :: xs => argmaxAux xs 1 0 x

/-- Running tally of the accuracy-evaluation loop. -/
structure EvalStats where
  hits : Nat
  processed : Nat
  deriving DecidableEq, Repr

/-- One step of the evaluation loop: a successful response is scored by
comparing the arg-max of its score vector with the ground-truth label; any
failed request is recorded as a miss and the loop continues. -/
def evalStep (s : EvalStats) (r : RequestResult) (label : Nat) : EvalStats :=
  match r with
  | RequestResult.success scores =>
      ⟨s.hits + (if argmax scores == label then 1 else 0), s.processed + 1⟩
  | _ => ⟨s.hits, s.processed + 1⟩

/-- Modelled from the spec: `eval_serving_performance` lives in
`emnist_dl2prod.utils`, which is not under src/.  Per spec sections 4.3 and
7 it folds the per-example request outcomes into a running tally, catching
every per-request failure. -/
def eval_serving_performance (examples : List (RequestResult × Nat)) : EvalStats :=
  examples.foldl (fun s e => evalStep s e.1 e.2) ⟨0, 0⟩

/-- True when an HTTP status code is in the 2xx success class. -/
def is2xx (n : Nat) : Bool := n / 100 == 2

/-- Modelled from the spec: the status endpoint of the external serving
binary (section 6) — 200 with a status body when the model's bundle
directory exists under the serving base path, 404 otherwise.  The client
returns the report as a value; it never raises. -/
def status_request (fs : FileSys) (mn : String) : Nat × String :=
  if pathExists fs ["models", mn] then (200, "model_version_status") else (404, "Not Found")

/-- Modelled from the spec: the predict endpoint (section 6) answers a
request whose `instances` rows all have length 784 with one score row per
instance, and rejects other bodies. -/
def predict_endpoint (model : List ℚ → List ℚ) (instances : List (List ℚ)) :
    Option (List (List ℚ)) :=
  if instances.all fun row => row.length == 784 then some (instances.map model) else none

/-- C1: for every input and output descriptor with a set dtype and non-empty
shape and any role keys and method, the built signature echoes the
descriptors exactly (round-trip identity); in the spec's concrete scenario
(input x float32 [1,784], output y float32 [1,62], method PREDICT, keys
images/scores) the result has inputs images name x, outputs scores shape
[1,62] and the PREDICT method identifier. -/
theorem sig_builder_round_trip :
    (∀ (i o : TensorInfo) (ik okk m : String),
        validTensorInfo i = true → validTensorInfo o = true →
        build_signature_def [(ik, i)] [(okk, o)] m = Except.ok ⟨[(ik, i)], [(okk, o)], m⟩) ∧
    scenario_signature = Except.ok scenario_sig_val ∧
    scenario_sig_val.inputs.lookup "images" = some scenario_input ∧
    scenario_input.name = "x" ∧
    (scenario_sig_val.outputs.lookup "scores").map TensorInfo.tensor_shape = some [1, 62] ∧
    scenario_sig_val.method_name = PREDICT_METHOD_NAME := by
  refine ⟨?_, rfl, by decide, by decide, by decide, by decide⟩
  intro i o ik okk m hi ho
  simp [build_signature_def, hi, ho]

/-- Witness for C1 at a concrete valid input. -/
theorem sig_builder_round_trip_witness :
    build_signature_def [("k", scenario_input)] [("v", scenario_output)] "m" =
      Except.ok ⟨[("k", scenario_input)], [("v", scenario_output)], "m"⟩ :=
  sig_builder_round_trip.1 scenario_input scenario_output "k" "v" "m" (by decide) (by decide)

/-- C2: every signature built with the CLASSIFY contract carries exactly the
reserved role keys (inputs/scores), and every signature built with the
PREDICT contract carries exactly the caller-supplied role keys. -/
theorem role_keys_by_method :
    (∀ (i o : TensorInfo) (s : SignatureDef),
        build_classification_signature i o = Except.ok s →
        s.inputs.map Prod.fst = [CLASSIFY_INPUTS] ∧
        s.outputs.map Prod.fst = [CLASSIFY_OUTPUT_SCORES] ∧
        s.method_name = CLASSIFY_METHOD_NAME) ∧
    (∀ (ik okk : String) (i o : TensorInfo) (s : SignatureDef),
        build_prediction_signature ik okk i o = Except.ok s →
        s.inputs.map Prod.fst = [ik] ∧ s.outputs.map Prod.fst = [okk] ∧
        s.method_name = PREDICT_METHOD_NAME) := by
  constructor
  · intro i o s h
    unfold build_classification_signature build_signature_def at h
    split at h
    · cases h
      simp
    · cases h
  · intro ik okk i o s h
    unfold build_prediction_signature build_signature_def at h
    split at h
    · cases h
      simp
    · cases h

/-- Witness for C2 at the concrete scenario descriptors. -/
theorem role_keys_by_method_witness :
    (⟨[(CLASSIFY_INPUTS, scenario_input)], [(CLASSIFY_OUTPUT_SCORES, scenario_output)],
        CLASSIFY_METHOD_NAME⟩ : SignatureDef).inputs.map Prod.fst = [CLASSIFY_INPUTS] ∧
    (⟨[(CLASSIFY_INPUTS, scenario_input)], [(CLASSIFY_OUTPUT_SCORES, scenario_output)],
        CLASSIFY_METHOD_NAME⟩ : SignatureDef).outputs.map Prod.fst = [CLASSIFY_OUTPUT_SCORES] ∧
    (⟨[(CLASSIFY_INPUTS, scenario_input)], [(CLASSIFY_OUTPUT_SCORES, scenario_output)],
        CLASSIFY_METHOD_NAME⟩ : SignatureDef).method_name = CLASSIFY_METHOD_NAME :=
  role_keys_by_method.1 scenario_input scenario_output _ rfl

/-- C3: whenever either descriptor has an unset dtype or an empty shape,
the Signature Builder returns the descriptive configuration error and never
a signature. -/
theorem sig_builder_invalid_fails :
    ∀ (i o : TensorInfo) (ik okk m : String),
      (i.dtype = DType.DT_INVALID ∨ i.tensor_shape = [] ∨
       o.dtype = DType.DT_INVALID ∨ o.tensor_shape = []) →
      build_signature_def [(ik, i)] [(okk, o)] m =
        Except.error "signature configuration error: unset dtype or empty tensor shape" := by
  intro i o ik okk m h
  unfold build_signature_def
  rcases h with h | h | h | h <;> simp [validTensorInfo, h]

/-- Witness for C3 at a descriptor with an unset dtype. -/
theorem sig_builder_invalid_fails_witness :
    build_signature_def [("a", ⟨"x", DType.DT_INVALID, [1]⟩)] [("b", scenario_output)] "m" =
      Except.error "signature configuration error: unset dtype or empty tensor shape" :=
  sig_builder_invalid_fails ⟨"x", DType.DT_INVALID, [1]⟩ scenario_output "a" "b" "m" (Or.inl rfl)

/-- C8: the Signature Builder is deterministic — two runs on equal inputs
return equal signatures (it is a pure function of its arguments in this
embedding, with no other state). -/
theorem sig_builder_deterministic :
    ∀ (i₁ i₂ o₁ o₂ : List (String × TensorInfo)) (m₁ m₂ : String),
      i₁ = i₂ → o₁ = o₂ → m₁ = m₂ →
      build_signature_def i₁ o₁ m₁ = build_signature_def i₂ o₂ m₂ := by
  intro i₁ i₂ o₁ o₂ m₁ m₂ hi ho hm
  rw [hi, ho, hm]

/-- Witness for C8: two runs at the notebook's prediction-signature inputs. -/
theorem sig_builder_deterministic_witness :
    build_signature_def [("images", scenario_input)] [("scores", scenario_output)]
        PREDICT_METHOD_NAME =
      build_signature_def [("images", scenario_input)] [("scores", scenario_output)]
        PREDICT_METHOD_NAME :=
  sig_builder_deterministic _ _ _ _ _ _ rfl rfl rfl

/-- C9: the notebook's signature map has exactly two entries — the default
serving key mapped to the classification signature and predict_images
mapped to the prediction signature — both built from the same two
descriptors (input flattened_rescaled_img_28x28:0 float32 [1,784], output
Softmax:0 float32 [1,62]), so the two signatures differ only in their role
keys and method name. -/
theorem notebook_signature_map_spec :
    input_tensor_info = some ⟨"flattened_rescaled_img_28x28:0", DType.DT_FLOAT, [1, 784]⟩ ∧
    output_tensor_info = some ⟨"Softmax:0", DType.DT_FLOAT, [1, 62]⟩ ∧
    notebook_signature_def_map = some
      [("predict_images",
        ⟨[("images", ⟨"flattened_rescaled_img_28x28:0", DType.DT_FLOAT, [1, 784]⟩)],
         [("scores", ⟨"Softmax:0", DType.DT_FLOAT, [1, 62]⟩)],
         PREDICT_METHOD_NAME⟩),
       (DEFAULT_SERVING_SIGNATURE_DEF_KEY,
        ⟨[(CLASSIFY_INPUTS, ⟨"flattened_rescaled_img_28x28:0", DType.DT_FLOAT, [1, 784]⟩)],
         [(CLASSIFY_OUTPUT_SCORES, ⟨"Softmax:0", DType.DT_FLOAT, [1, 62]⟩)],
         CLASSIFY_METHOD_NAME⟩)] :=
  ⟨by decide, by decide, by decide⟩

/-- Transitivity of the boolean path-prefix test. -/
lemma prefix_trans_bool {a b c : List String} (h1 : a.isPrefixOf b = true)
    (h2 : b.isPrefixOf c = true) : a.isPrefixOf c = true := by
  rw [List.isPrefixOf_iff_prefix] at h1 h2 ⊢
  exact h1.trans h2

/-- After the notebook's cleanup step no directory below `export_path`
survives. -/
lemma rmtree_step_dirs_clean (fs : FileSys) :
    ((rmtree_step fs).dirs.all fun d => !(export_path.isPrefixOf d)) = true := by
  unfold rmtree_step
  split
  next h =>
    rw [List.all_eq_true]
    intro d hd
    have hm := List.mem_filter.mp hd
    simpa using hm.2
  next h =>
    have h2 : pathExists fs export_path = false := by
      cases hx : pathExists fs export_path
      · rfl
      · exact absurd hx h
    unfold pathExists at h2
    rw [Bool.or_eq_false_iff] at h2
    rw [List.all_eq_true]
    intro d hd
    have hne := List.any_eq_false.mp h2.1 d hd
    have h3 : export_path.isPrefixOf d = false := by
      cases hx : export_path.isPrefixOf d
      · rfl
      · exact absurd hx hne
    simp [h3]

/-- After the notebook's cleanup step no file below `export_path`
survives. -/
lemma rmtree_step_files_clean (fs : FileSys) :
    ((rmtree_step fs).files.all fun f => !(export_path.isPrefixOf f.1)) = true := by
  unfold rmtree_step
  split
  next h =>
    rw [List.all_eq_true]
    intro f hf
    have hm := List.mem_filter.mp hf
    simpa using hm.2
  next h =>
    have h2 : pathExists fs export_path = false := by
      cases hx : pathExists fs export_path
      · rfl
      · exact absurd hx h
    unfold pathExists at h2
    rw [Bool.or_eq_false_iff] at h2
    rw [List.all_eq_true]
    intro f hf
    have hne := List.any_eq_false.mp h2.2 f hf
    have h3 : export_path.isPrefixOf f.1 = false := by
      cases hx : export_path.isPrefixOf f.1
      · rfl
      · exact absurd hx hne
    simp [h3]

/-- After the notebook's cleanup step the target version directory is
gone. -/
lemma model_path_gone (fs : FileSys) : pathExists (rmtree_step fs) model_path = false := by
  have hd := rmtree_step_dirs_clean fs
  have hf := rmtree_step_files_clean fs
  unfold pathExists
  rw [Bool.or_eq_false_iff]
  have hep : export_path.isPrefixOf model_path = true := by decide
  constructor
  · rw [List.any_eq_false]
    intro d hdm hq
    have h1 := List.all_eq_true.mp hd d hdm
    have h2 := prefix_trans_bool hep hq
    rw [h2] at h1
    exact absurd h1 (by decide)
  · rw [List.any_eq_false]
    intro f hfm hq
    have h1 := List.all_eq_true.mp hf f hfm
    have h2 := prefix_trans_bool hep hq
    rw [h2] at h1
    exact absurd h1 (by decide)

/-- C4: whenever the version subdirectory already exists, the Bundle
Exporter fails with the already-exists error and returns the filesystem
unchanged (no partial overwrite of the pre-existing contents). -/
theorem export_existing_version_fails :
    ∀ (fs : FileSys) (dir : List String) (version : Nat)
      (sm : List (String × SignatureDef)) (g : String),
      pathExists fs (dir ++ [toString version]) = true →
      exportBundle fs dir version sm g = (fs, some "already exists") := by
  intro fs dir version sm g h
  unfold exportBundle
  simp [h]

/-- Witness for C4 at a filesystem that already holds the version
directory. -/
theorem export_existing_version_fails_witness :
    exportBundle ⟨[["d", "1"]], []⟩ ["d"] 1 [] "g" = (⟨[["d", "1"]], []⟩, some "already exists") :=
  export_existing_version_fails ⟨[["d", "1"]], []⟩ ["d"] 1 [] "g" (by decide)

/-- C5: whenever the signature map lacks an entry under the reserved
default serving key, the export fails and performs no filesystem write —
the returned filesystem is exactly the input one. -/
theorem export_missing_default_key_no_write :
    ∀ (fs : FileSys) (dir : List String) (version : Nat)
      (sm : List (String × SignatureDef)) (g : String),
      (sm.all fun kv => kv.1 != DEFAULT_SERVING_SIGNATURE_DEF_KEY) = true →
      (exportBundle fs dir version sm g).1 = fs ∧
      (exportBundle fs dir version sm g).2.isSome = true := by
  intro fs dir version sm g h
  have hany : (sm.any fun kv => kv.1 == DEFAULT_SERVING_SIGNATURE_DEF_KEY) = false := by
    rw [List.any_eq_false]
    intro kv hkv
    have := List.all_eq_true.mp h kv hkv
    simpa using this
  cases hex : pathExists fs (dir ++ [toString version]) <;>
    simp [exportBundle, hex, hany]

/-- Witness for C5 at a signature map holding only the predict key. -/
theorem export_missing_default_key_no_write_witness :
    (exportBundle ⟨[], []⟩ ["d"] 1 [("predict_images", scenario_sig_val)] "g").1 = ⟨[], []⟩ ∧
    (exportBundle ⟨[], []⟩ ["d"] 1 [("predict_images", scenario_sig_val)] "g").2.isSome = true :=
  export_missing_default_key_no_write ⟨[], []⟩ ["d"] 1 [("predict_images", scenario_sig_val)]
    "g" (by decide)

/-- C10: for every starting filesystem the notebook flow deletes the whole
model directory tree (every previously exported version, not only the
target one), exports under the constant version 1, and the exporter's
already-exists branch is unreachable — the flow never reports an error at
all. -/
theorem export_flow_wipes_and_uses_version_one :
    ∀ fs : FileSys,
      model_version = 1 ∧
      ((rmtree_step fs).dirs.all fun d => !(export_path.isPrefixOf d)) = true ∧
      ((rmtree_step fs).files.all fun f => !(export_path.isPrefixOf f.1)) = true ∧
      pathExists (rmtree_step fs) model_path = false ∧
      (export_flow fs).2 = none := by
  intro fs
  refine ⟨rfl, rmtree_step_dirs_clean fs, rmtree_step_files_clean fs, model_path_gone fs, ?_⟩
  obtain ⟨sm, hsm, hany⟩ :
      ∃ sm, notebook_signature_def_map = some sm ∧
        (sm.any fun kv => kv.1 == DEFAULT_SERVING_SIGNATURE_DEF_KEY) = true := ⟨_, rfl, by decide⟩
  unfold export_flow
  rw [hsm]
  have hex : pathExists (rmtree_step fs) (export_path ++ [toString model_version]) = false :=
    model_path_gone fs
  simp [exportBundle, hex, hany]

/-- The evaluation fold always processes every example, whatever the
request outcomes. -/
lemma eval_foldl_processed (l : List (RequestResult × Nat)) (s : EvalStats) :
    (l.foldl (fun a e => evalStep a e.1 e.2) s).processed = s.processed + l.length := by
  induction l generalizing s with
  | nil => simp
  | cons x xs ih =>
    obtain ⟨r, lbl⟩ := x
    rw [List.foldl_cons, ih]
    cases r <;> simp [evalStep] <;> omega

/-- C6: the accuracy-evaluation loop is total over arbitrary per-request
outcomes — every example is processed whatever the network did; a failed
request (connection refused, timeout, non-2xx, malformed JSON) adds one
processed example and no hit (a miss) and evaluation continues; and the
status check on a model with no bundle directory reports the non-2xx code
404 as a value rather than raising. -/
theorem eval_loop_failure_is_miss :
    (∀ examples : List (RequestResult × Nat),
        (eval_serving_performance examples).processed = examples.length) ∧
    (∀ (examples : List (RequestResult × Nat)) (r : RequestResult) (lbl : Nat),
        isFailure r = true →
        eval_serving_performance (examples ++ [(r, lbl)]) =
          ⟨(eval_serving_performance examples).hits,
           (eval_serving_performance examples).processed + 1⟩) ∧
    (∀ (fs : FileSys) (mn : String),
        pathExists fs ["models", mn] = false →
        (status_request fs mn).1 = 404 ∧ is2xx (status_request fs mn).1 = false) := by
  refine ⟨?_, ?_, ?_⟩
  · intro examples
    unfold eval_serving_performance
    rw [eval_foldl_processed]
    simp
  · intro examples r lbl h
    unfold eval_serving_performance
    rw [List.foldl_append]
    cases r
    · simp [isFailure] at h
    all_goals simp [evalStep]
  · intro fs mn h
    have hs : status_request fs mn = (404, "Not Found") := by
      simp [status_request, h]
    rw [hs]
    exact ⟨rfl, rfl⟩

/-- Witness for C6: a timed-out request on an empty history is one
processed miss, and the status check on an empty filesystem reports 404. -/
theorem eval_loop_failure_is_miss_witness :
    eval_serving_performance [(RequestResult.timeout, 0)] =
      ⟨(eval_serving_performance []).hits, (eval_serving_performance []).processed + 1⟩ ∧
    (status_request ⟨[], []⟩ "tf_emnist").1 = 404 ∧
    is2xx (status_request ⟨[], []⟩ "tf_emnist").1 = false :=
  ⟨by
    have h := eval_loop_failure_is_miss.2.1 [] RequestResult.timeout 0 (by decide)
    simpa using h,
   (eval_loop_failure_is_miss.2.2 ⟨[], []⟩ "tf_emnist" (by decide)).1,
   (eval_loop_failure_is_miss.2.2 ⟨[], []⟩ "tf_emnist" (by decide)).2⟩

/-- The accumulator-form arg-max stays below the running bound. -/
lemma argmaxAux_lt (xs : List ℚ) :
    ∀ (i best : Nat) (bv : ℚ), best < i → argmaxAux xs i best bv < i + xs.length := by
  induction xs with
  | nil =>
    intro i best bv h
    simpa [argmaxAux] using h
  | cons x xs ih =>
    intro i best bv h
    simp only [argmaxAux, List.length_cons]
    split
    · have h2 := ih (i + 1) i x (Nat.lt_succ_self i)
      omega
    · have h2 := ih (i + 1) best bv (Nat.lt_succ_of_lt h)
      omega

/-- The arg-max of a non-empty score vector is a valid index. -/
lemma argmax_lt_length (l : List ℚ) (h : l ≠ []) : argmax l < l.length := by
  cases l with
  | nil => exact absurd rfl h
  | cons x xs =>
    simp only [argmax, List.length_cons]
    have := argmaxAux_lt xs 1 0 x Nat.one_pos
    omega

/-- C7: for a predict request whose instances rows all have length 784 and
a model producing 62 scores per row, the response has exactly one
prediction row per instance and each row's arg-max — the client's predicted
class — is an integer in [0,62). -/
theorem predict_rows_argmax_bound :
    ∀ (model : List ℚ → List ℚ) (instances preds : List (List ℚ)),
      (∀ x, (model x).length = 62) →
      predict_endpoint model instances = some preds →
      preds.length = instances.length ∧ ∀ p ∈ preds, argmax p < 62 := by
  intro model instances preds hm hp
  unfold predict_endpoint at hp
  split at hp
  · cases hp
    constructor
    · simp
    · intro p hp2
      obtain ⟨row, hrow, rfl⟩ := List.mem_map.mp hp2
      have hlen := hm row
      have hne : model row ≠ [] := by
        intro h0
        rw [h0] at hlen
        simp at hlen
      have := argmax_lt_length (model row) hne
      omega
  · cases hp

/-- Witness for C7: three all-zero rows of length 784 against a constant
62-score model. -/
theorem predict_rows_argmax_bound_witness :
    (List.replicate 3 (List.replicate 62 (0 : ℚ))).length =
      (List.replicate 3 (List.replicate 784 (0 : ℚ))).length ∧
    ∀ p ∈ List.replicate 3 (List.replicate 62 (0 : ℚ)), argmax p < 62 :=
  predict_rows_argmax_bound (fun _ => List.replicate 62 0)
    (List.replicate 3 (List.replicate 784 0))
    (List.replicate 3 (List.replicate 62 0))
    (fun _ => by simp)
    (by
      unfold predict_endpoint
      rw [if_pos]
      · rw [List.map_replicate]
      · rw [List.all_eq_true]
        intro row hrow
        rw [List.eq_of_mem_replicate hrow, List.length_replicate]
        exact Nat.beq_refl 784)

end EmnistServing
